import Mathlib

/-!
Shallow embedding of the prepared-statement management core declared in
src/include/MySQL_PreparedStatement.h (ProxySQL).

The header defines four classes: MySQL_STMTs_meta (per-session execute-metadata
table), StmtLongDataHandler (per-session long-data buffer), MySQL_STMTs_local_v14
(per-session client/backend id translation table) and MySQL_STMT_Manager_v14
(process-wide statement registry).  The bodies of MySQL_STMTs_meta and of
MySQL_STMTs_local_v14::find_backend_stmt_by_global_id are inline in the header
and are embedded from the source; the remaining method bodies live in
MySQL_PreparedStatement.cpp, which is not part of the sources at hand, and are
modelled from the specification (each such definition carries a doc comment
starting with "Modelled from the spec:").

C++ pointers to metadata objects and native MYSQL_STMT handles are modelled as
abstract Nat tokens; machine integers are Nat with explicit reduction modulo
2^32 where the header fixes a 32-bit unsigned type and overflow is observable.
-/

namespace ProxySQLPS

/-- Modulus of C++ unsigned 32-bit (uint32_t / unsigned int) arithmetic. -/
def U32 : Nat := 4294967296

/-- Lookup in an association list; models std::map::find (keys are unique in a
std::map, so first match is the match). -/
def assocLookup {κ α : Type} [DecidableEq κ] : List (κ × α) → κ → Option α
  | [], _ => none
  | p :: rest, k => if p.1 = k then some p.2 else assocLookup rest k

/-- Remove the first entry holding the given key; models std::map::erase of a
found iterator. -/
def assocErase {κ α : Type} [DecidableEq κ] : List (κ × α) → κ → List (κ × α)
  | [], _ => []
  | p :: rest, k => if p.1 = k then rest else p :: assocErase rest k

/-- Replace the value stored under a key that is present; models a write through
a found std::map iterator.  Absent keys are left untouched. -/
def assocSet {κ α : Type} [DecidableEq κ] : List (κ × α) → κ → α → List (κ × α)
  | [], _, _ => []
  | p :: rest, k, v => if p.1 = k then (k, v) :: rest else p :: assocSet rest k v

/-- std::map::insert: inserts only when the key is absent.  The Bool is the
second component of the pair std::map::insert returns (true iff an insertion
took place). -/
def assocInsertIfAbsent {κ α : Type} [DecidableEq κ] (m : List (κ × α)) (k : κ) (v : α) :
    List (κ × α) × Bool :=
  match assocLookup m k with
  | some _ => (m, false)
  | none => ((k, v) :: m, true)

/-!  ## MySQL_STMTs_meta

All three methods (insert, find, erase) are defined inline in the header and the
definitions below are direct embeddings of that source.  The values stored in
the map (stmt_execute_metadata_t pointers) are modelled as abstract Nat tokens.
-/

/-- State of class MySQL_STMTs_meta: the std::map from uint32_t statement id to
stmt_execute_metadata_t pointer (modelled as a Nat token), and the
`unsigned int num_entries` counter, whose arithmetic wraps modulo 2^32. -/
structure MySQL_STMTs_meta where
  num_entries : Nat
  m : List (Nat × Nat)
deriving DecidableEq

/-- MySQL_STMTs_meta constructor: num_entries = 0, empty map. -/
def MySQL_STMTs_meta.empty : MySQL_STMTs_meta := { num_entries := 0, m := [] }

/-- MySQL_STMTs_meta::insert (inline in the header):
`ret = m.insert(make_pair(global_statement_id, stmt_meta))` inserts only when
the key is absent (std::map::insert semantics) and `num_entries++` runs only
when `ret.second == true`.  The uint32_t parameter reduces a wider caller
argument modulo 2^32; the unsigned counter wraps modulo 2^32. -/
def MySQL_STMTs_meta.insert (t : MySQL_STMTs_meta) (global_statement_id stmt_meta : Nat) :
    MySQL_STMTs_meta :=
  match assocInsertIfAbsent t.m (global_statement_id % U32) stmt_meta with
  | (m2, true) => { num_entries := (t.num_entries + 1) % U32, m := m2 }
  | (m2, false) => { num_entries := t.num_entries, m := m2 }

/-- MySQL_STMTs_meta::find (inline in the header): returns the stored pointer
when the key is found, NULL (modelled as none) otherwise. -/
def MySQL_STMTs_meta.find (t : MySQL_STMTs_meta) (global_statement_id : Nat) : Option Nat :=
  assocLookup t.m (global_statement_id % U32)

/-- MySQL_STMTs_meta::erase (inline in the header): when the key is found, the
metadata object is deleted, `num_entries--` runs (unsigned wrap modulo 2^32) and
the entry is erased; otherwise nothing happens. -/
def MySQL_STMTs_meta.erase (t : MySQL_STMTs_meta) (global_statement_id : Nat) :
    MySQL_STMTs_meta :=
  match assocLookup t.m (global_statement_id % U32) with
  | some _ =>
      { num_entries := (t.num_entries + (U32 - 1)) % U32,
        m := assocErase t.m (global_statement_id % U32) }
  | none => t

/-- One operation on a MySQL_STMTs_meta table. -/
inductive MetaOp where
  | ins (global_statement_id stmt_meta : Nat)
  | del (global_statement_id : Nat)

/-- Apply one MySQL_STMTs_meta operation. -/
def applyMetaOp (t : MySQL_STMTs_meta) : MetaOp → MySQL_STMTs_meta
  | MetaOp.ins g v => t.insert g v
  | MetaOp.del g => t.erase g

/-- A freshly constructed MySQL_STMTs_meta after a sequence of insert and erase
operations. -/
def runMeta (ops : List MetaOp) : MySQL_STMTs_meta :=
  List.foldl applyMetaOp MySQL_STMTs_meta.empty ops

/-- The sequence of n inserts with the pairwise distinct keys 0, 1, ..., n-1. -/
def metaInsertSeq (n : Nat) : List MetaOp :=
  (List.range n).map (fun k => MetaOp.ins k 0)

/-!  ## StmtLongDataHandler

The class holds a PtrArray of stmt_long_data_t records; the method bodies are
in MySQL_PreparedStatement.cpp (absent from src/) and are modelled from the
specification (section 4.4 of spec.md).
-/

/-- Modulus of C++ unsigned 16-bit (uint16_t) arithmetic. -/
def U16 : Nat := 65536

/-- One staged long-data record (struct stmt_long_data_t): uint32 stmt_id,
uint16 param_id, the data bytes (modelled as a Nat token) and the null flag. -/
structure stmt_long_data_t where
  stmt_id : Nat
  param_id : Nat
  data : Nat
  is_null : Bool
deriving DecidableEq

/-- State of class StmtLongDataHandler: the PtrArray long_datas, in arrival
order. -/
structure StmtLongDataHandler where
  long_datas : List stmt_long_data_t
deriving DecidableEq

/-- StmtLongDataHandler constructor: empty buffer. -/
def StmtLongDataHandler.empty : StmtLongDataHandler := ⟨[]⟩

/-- Modelled from the spec: the body of StmtLongDataHandler::add is in
MySQL_PreparedStatement.cpp (absent from src/).  Section 4.4: appends one
record in arrival order; the uint32/uint16 parameters reduce wider caller
arguments. -/
def StmtLongDataHandler.add (h : StmtLongDataHandler)
    (stmt_id param_id data : Nat) (is_null : Bool) : StmtLongDataHandler :=
  ⟨h.long_datas ++ [⟨stmt_id % U32, param_id % U16, data, is_null⟩]⟩

/-- Remove every record carrying the given (already reduced) statement id,
counting the removed records and keeping the rest in order. -/
def resetLongDatas : List stmt_long_data_t → Nat → Nat × List stmt_long_data_t
  | [], _ => (0, [])
  | r :: rest, s =>
    if r.stmt_id = s then
      ((resetLongDatas rest s).1 + 1, (resetLongDatas rest s).2)
    else
      ((resetLongDatas rest s).1, r :: (resetLongDatas rest s).2)

/-- Modelled from the spec: the body of StmtLongDataHandler::reset is in
MySQL_PreparedStatement.cpp (absent from src/).  Section 4.4: drops all entries
for the statement id and reports how many were removed. -/
def StmtLongDataHandler.reset (h : StmtLongDataHandler) (stmt_id : Nat) :
    Nat × StmtLongDataHandler :=
  ((resetLongDatas h.long_datas (stmt_id % U32)).1,
    ⟨(resetLongDatas h.long_datas (stmt_id % U32)).2⟩)

/-- Fold a list of add requests (each a stmt_long_data_t carrying the raw call
arguments) over a buffer. -/
def addAll (h : StmtLongDataHandler) (reqs : List stmt_long_data_t) :
    StmtLongDataHandler :=
  reqs.foldl (fun h2 r => h2.add r.stmt_id r.param_id r.data r.is_null) h

/-!  ## MySQL_STMT_Manager_v14 (the global statement registry)

The header declares the class; the method bodies are in
MySQL_PreparedStatement.cpp, which is not among the sources, so the operations
are modelled from the specification (sections 4.1, 7, 8 of spec.md).
-/

/-- The identity tuple of a prepared statement: (hostgroup, user, schema, query,
query_length).  The specification keys the fingerprint index by a deterministic
64-bit hash of this tuple and states that only equality of fingerprints matters;
the embedding uses the tuple itself as the key. -/
structure StmtIdentity where
  hostgroup : Nat
  user : String
  schema : String
  query : String
  query_length : Nat
deriving DecidableEq

/-- The fields of class MySQL_STMT_Global_info that the registry operations
observe: the proxy-assigned statement id, the identity tuple, and the two signed
int reference counters.  The metadata copied verbatim from the upstream prepare
reply (digest, column/parameter descriptors, cache policy) is carried by no
claim and is not modelled. -/
structure MySQL_STMT_Global_info where
  statement_id : Nat
  ident : StmtIdentity
  ref_count_client : Int
  ref_count_server : Int
deriving DecidableEq

/-- State of class MySQL_STMT_Manager_v14: the id index map_stmt_id_to_info, the
fingerprint index map_stmt_hash_to_info (modelled as identity tuple to statement
id; in the source both indices reference the same record object), the LIFO
recycle stack free_stmt_ids (head is the top), the monotonic allocator
next_statement_id and the metric counter. -/
structure MySQL_STMT_Manager_v14 where
  next_statement_id : Nat
  num_stmt_with_ref_client_count_zero : Nat
  map_stmt_id_to_info : List (Nat × MySQL_STMT_Global_info)
  map_stmt_hash_to_info : List (StmtIdentity × Nat)
  free_stmt_ids : List Nat
deriving DecidableEq

/-- Modelled from the spec: the MySQL_STMT_Manager_v14 constructor is in
MySQL_PreparedStatement.cpp (absent from src/).  Global ids start from 1
(section 4.1: id 0 is reserved as "none"); both indices and the recycle stack
start empty. -/
def MySQL_STMT_Manager_v14.empty : MySQL_STMT_Manager_v14 :=
  { next_statement_id := 1
    num_stmt_with_ref_client_count_zero := 0
    map_stmt_id_to_info := []
    map_stmt_hash_to_info := []
    free_stmt_ids := [] }

/-- Modelled from the spec: the body of MySQL_STMT_Manager_v14::ref_count_client
is in MySQL_PreparedStatement.cpp (absent from src/).  Section 4.1: adjusts the
client refcount by the signed delta under the write lock; when client_refs
transitions to zero the metric counter is incremented; when both refcounts reach
zero the record is removed from both indices and its id pushed onto the recycle
stack.  Section 7: refcount underflow never wraps; the clamp-to-zero policy is
modelled. -/
def MySQL_STMT_Manager_v14.ref_count_client (r : MySQL_STMT_Manager_v14)
    (stmt_id : Nat) (v : Int) : MySQL_STMT_Manager_v14 :=
  match assocLookup r.map_stmt_id_to_info stmt_id with
  | none => r
  | some info =>
    let c : Int := max (info.ref_count_client + v) 0
    let z : Nat :=
      if c = 0 ∧ info.ref_count_client ≠ 0 then r.num_stmt_with_ref_client_count_zero + 1
      else r.num_stmt_with_ref_client_count_zero
    if c = 0 ∧ info.ref_count_server = 0 then
      { r with
        map_stmt_id_to_info := assocErase r.map_stmt_id_to_info stmt_id
        map_stmt_hash_to_info := assocErase r.map_stmt_hash_to_info info.ident
        free_stmt_ids := stmt_id :: r.free_stmt_ids
        num_stmt_with_ref_client_count_zero := z }
    else
      { r with
        map_stmt_id_to_info :=
          assocSet r.map_stmt_id_to_info stmt_id { info with ref_count_client := c }
        num_stmt_with_ref_client_count_zero := z }

/-- Modelled from the spec: the body of MySQL_STMT_Manager_v14::ref_count_server
is in MySQL_PreparedStatement.cpp (absent from src/).  Section 4.1: adjusts the
server refcount by the signed delta; when both refcounts reach zero the record
is removed from both indices and its id pushed onto the recycle stack.  Section
7: underflow clamps to zero.  The metric counter tracks client refcount
transitions only, so it is untouched here. -/
def MySQL_STMT_Manager_v14.ref_count_server (r : MySQL_STMT_Manager_v14)
    (stmt_id : Nat) (v : Int) : MySQL_STMT_Manager_v14 :=
  match assocLookup r.map_stmt_id_to_info stmt_id with
  | none => r
  | some info =>
    let s : Int := max (info.ref_count_server + v) 0
    if info.ref_count_client = 0 ∧ s = 0 then
      { r with
        map_stmt_id_to_info := assocErase r.map_stmt_id_to_info stmt_id
        map_stmt_hash_to_info := assocErase r.map_stmt_hash_to_info info.ident
        free_stmt_ids := stmt_id :: r.free_stmt_ids }
    else
      { r with
        map_stmt_id_to_info :=
          assocSet r.map_stmt_id_to_info stmt_id { info with ref_count_server := s } }

/-- Modelled from the spec: the body of
MySQL_STMT_Manager_v14::add_prepared_statement (intern) is in
MySQL_PreparedStatement.cpp (absent from src/).  Section 4.1: under the write
lock, look up by fingerprint; on a hit increment client_refs and return the
existing record (the prepare reply is discarded); on a miss allocate a global id
(pop from the recycle stack if nonempty, else take the next monotonic id),
install the record in both indices with client_refs = 1 and server_refs = 0.
Returns the global id together with the new registry state. -/
def MySQL_STMT_Manager_v14.add_prepared_statement (r : MySQL_STMT_Manager_v14)
    (hostgroup : Nat) (user schema query : String) (query_length : Nat) :
    Nat × MySQL_STMT_Manager_v14 :=
  let fp : StmtIdentity := ⟨hostgroup, user, schema, query, query_length⟩
  match assocLookup r.map_stmt_hash_to_info fp with
  | some id =>
    match assocLookup r.map_stmt_id_to_info id with
    | some info =>
      (id,
        { r with
          map_stmt_id_to_info :=
            assocSet r.map_stmt_id_to_info id
              { info with ref_count_client := info.ref_count_client + 1 } })
    | none => (id, r)
  | none =>
    match r.free_stmt_ids with
    | i :: rest =>
      (i,
        { r with
          free_stmt_ids := rest
          map_stmt_id_to_info := (i, ⟨i, fp, 1, 0⟩) :: r.map_stmt_id_to_info
          map_stmt_hash_to_info := (fp, i) :: r.map_stmt_hash_to_info })
    | [] =>
      (r.next_statement_id,
        { r with
          next_statement_id := r.next_statement_id + 1
          map_stmt_id_to_info :=
            (r.next_statement_id, ⟨r.next_statement_id, fp, 1, 0⟩) :: r.map_stmt_id_to_info
          map_stmt_hash_to_info := (fp, r.next_statement_id) :: r.map_stmt_hash_to_info })

/-- The client refcount currently recorded for a global id, none when the id is
not in the registry. -/
def refClientOf (r : MySQL_STMT_Manager_v14) (stmt_id : Nat) : Option Int :=
  Option.map MySQL_STMT_Global_info.ref_count_client (assocLookup r.map_stmt_id_to_info stmt_id)

/-- Registry invariant of claim C2: every record present in the id index has
nonnegative refcounts, and no present record has both refcounts zero (a record
whose refcounts are both zero is removed). -/
def RegInv (r : MySQL_STMT_Manager_v14) : Prop :=
  ∀ p ∈ r.map_stmt_id_to_info,
    0 ≤ p.2.ref_count_client ∧ 0 ≤ p.2.ref_count_server ∧
    ¬(p.2.ref_count_client = 0 ∧ p.2.ref_count_server = 0)

/-- Keys of the registry id index are unique (a std::map property). -/
def RegKeysNodup (r : MySQL_STMT_Manager_v14) : Prop :=
  (r.map_stmt_id_to_info.map Prod.fst).Nodup

/-!  ## MySQL_STMTs_local_v14 (per-session translation table)

The structure fields, the constructor and find_backend_stmt_by_global_id are
inline in the header and embedded from the source; the bodies of
generate_new_client_stmt_id, find_global_stmt_id_from_client, client_close and
backend_insert are in MySQL_PreparedStatement.cpp (absent from src/) and are
modelled from the specification (sections 4.2, 4.3, 7 of spec.md).
-/

/-- State of class MySQL_STMTs_local_v14.  Client ids are uint32_t, global ids
uint64_t; MYSQL_STMT pointers (native backend handles) are modelled as Nat
tokens.  free_client_ids is a LIFO stack whose head is the top. -/
structure MySQL_STMTs_local_v14 where
  is_client_ : Bool
  client_stmt_to_global_ids : List (Nat × Nat)
  global_stmt_to_client_ids : List (Nat × Nat)
  backend_stmt_to_global_ids : List (Nat × Nat)
  global_stmt_to_backend_ids : List (Nat × Nat)
  global_stmt_to_backend_stmt : List (Nat × Nat)
  free_client_ids : List Nat
  local_max_stmt_id : Nat
deriving DecidableEq

/-- MySQL_STMTs_local_v14 constructor (inline in the header): all maps and the
free list empty, local_max_stmt_id = 0. -/
def MySQL_STMTs_local_v14.empty (ic : Bool) : MySQL_STMTs_local_v14 :=
  { is_client_ := ic
    client_stmt_to_global_ids := []
    global_stmt_to_client_ids := []
    backend_stmt_to_global_ids := []
    global_stmt_to_backend_ids := []
    global_stmt_to_backend_stmt := []
    free_client_ids := []
    local_max_stmt_id := 0 }

/-- MySQL_STMTs_local_v14::find_backend_stmt_by_global_id (inline in the
header).  The parameter is declared uint32_t while the map
global_stmt_to_backend_stmt is keyed by uint64_t global ids: a caller passing a
64-bit global id has it reduced modulo 2^32 at the call boundary, and the
reduced value is then promoted exactly to uint64_t for the key comparison.  The
embedding takes the caller's value and performs that reduction. -/
def MySQL_STMTs_local_v14.find_backend_stmt_by_global_id (t : MySQL_STMTs_local_v14)
    (global_statement_id : Nat) : Option Nat :=
  assocLookup t.global_stmt_to_backend_stmt (global_statement_id % U32)

/-- MySQL_STMTs_local_v14::get_num_backend_stmts (inline in the header). -/
def MySQL_STMTs_local_v14.get_num_backend_stmts (t : MySQL_STMTs_local_v14) : Nat :=
  t.backend_stmt_to_global_ids.length

/-- Modelled from the spec: the body of
MySQL_STMTs_local_v14::generate_new_client_stmt_id is in
MySQL_PreparedStatement.cpp (absent from src/).  Section 4.2: pop a recycled
client id from the free list when nonempty, else increment local_max_stmt_id
and use the new value; insert client_id to global_id into the map and global_id
to client_id into the multimap; return the client id.  The spec describes a
monotonic small-integer allocator; overflow of the uint32_t counter is left
unspecified there and is not modelled. -/
def MySQL_STMTs_local_v14.generate_new_client_stmt_id (t : MySQL_STMTs_local_v14)
    (global_statement_id : Nat) : Nat × MySQL_STMTs_local_v14 :=
  match t.free_client_ids with
  | c :: rest =>
    (c,
      { t with
        free_client_ids := rest
        client_stmt_to_global_ids := (c, global_statement_id) :: t.client_stmt_to_global_ids
        global_stmt_to_client_ids := (global_statement_id, c) :: t.global_stmt_to_client_ids })
  | [] =>
    (t.local_max_stmt_id + 1,
      { t with
        local_max_stmt_id := t.local_max_stmt_id + 1
        client_stmt_to_global_ids :=
          (t.local_max_stmt_id + 1, global_statement_id) :: t.client_stmt_to_global_ids
        global_stmt_to_client_ids :=
          (global_statement_id, t.local_max_stmt_id + 1) :: t.global_stmt_to_client_ids })

/-- Modelled from the spec: the body of
MySQL_STMTs_local_v14::find_global_stmt_id_from_client is in
MySQL_PreparedStatement.cpp (absent from src/).  Section 4.2: direct lookup of
the client id in the client map. -/
def MySQL_STMTs_local_v14.find_global_stmt_id_from_client (t : MySQL_STMTs_local_v14)
    (client_stmt_id : Nat) : Option Nat :=
  assocLookup t.client_stmt_to_global_ids client_stmt_id

/-- Modelled from the spec: the body of MySQL_STMTs_local_v14::client_close is
in MySQL_PreparedStatement.cpp (absent from src/).  Section 4.2: if the client
id is unknown return false with no state mutation; otherwise remove the pair
from both maps, call ref_count_client(global_id, -1) on the registry exactly
when the global id has no remaining client ids in this session's multimap, push
the client id onto the free list and return true. -/
def MySQL_STMTs_local_v14.client_close (t : MySQL_STMTs_local_v14)
    (reg : MySQL_STMT_Manager_v14) (client_statement_id : Nat) :
    Bool × MySQL_STMTs_local_v14 × MySQL_STMT_Manager_v14 :=
  match assocLookup t.client_stmt_to_global_ids client_statement_id with
  | none => (false, t, reg)
  | some g =>
    (true,
      { t with
        client_stmt_to_global_ids := assocErase t.client_stmt_to_global_ids client_statement_id
        global_stmt_to_client_ids :=
          t.global_stmt_to_client_ids.filter
            (fun p => decide (¬(p.1 = g ∧ p.2 = client_statement_id)))
        free_client_ids := client_statement_id :: t.free_client_ids },
      if (t.global_stmt_to_client_ids.filter
            (fun p => decide (¬(p.1 = g ∧ p.2 = client_statement_id)))).countP
            (fun p => decide (p.1 = g)) = 0
      then reg.ref_count_client g (-1)
      else reg)

/-- Modelled from the spec: the body of MySQL_STMTs_local_v14::backend_insert is
in MySQL_PreparedStatement.cpp (absent from src/).  Sections 4.3 and 7: insert
the three mappings (native backend stmt id to global id, global id to native
backend stmt id, global id to native handle object), each with std::map::insert
semantics; call ref_count_server(global_id, +1) on the registry only when the
native-id mapping was newly inserted for this connection-statement pair; a
duplicate bind is idempotent.  backend_stmt_id is the uint32 stmt_id carried by
the native MYSQL_STMT handle, whose object is the Nat token handle. -/
def MySQL_STMTs_local_v14.backend_insert (t : MySQL_STMTs_local_v14)
    (reg : MySQL_STMT_Manager_v14) (global_statement_id backend_stmt_id handle : Nat) :
    MySQL_STMTs_local_v14 × MySQL_STMT_Manager_v14 :=
  (({ t with
      backend_stmt_to_global_ids :=
        (assocInsertIfAbsent t.backend_stmt_to_global_ids (backend_stmt_id % U32)
          global_statement_id).1
      global_stmt_to_backend_ids :=
        (assocInsertIfAbsent t.global_stmt_to_backend_ids global_statement_id
          (backend_stmt_id % U32)).1
      global_stmt_to_backend_stmt :=
        (assocInsertIfAbsent t.global_stmt_to_backend_stmt global_statement_id handle).1 }),
    if (assocInsertIfAbsent t.backend_stmt_to_global_ids (backend_stmt_id % U32)
          global_statement_id).2
    then reg.ref_count_server global_statement_id 1
    else reg)

/-- One operation on a session together with the shared registry: issue a new
client id for a global id, close a client id, or bind a backend statement. -/
inductive SessionOp where
  | gen (global_statement_id : Nat)
  | close (client_statement_id : Nat)
  | bind (global_statement_id backend_stmt_id handle : Nat)

/-- Apply one session operation to the pair (session table, registry). -/
def applySessionOp (s : MySQL_STMTs_local_v14 × MySQL_STMT_Manager_v14) :
    SessionOp → MySQL_STMTs_local_v14 × MySQL_STMT_Manager_v14
  | SessionOp.gen g => ((s.1.generate_new_client_stmt_id g).2, s.2)
  | SessionOp.close c => ((s.1.client_close s.2 c).2.1, (s.1.client_close s.2 c).2.2)
  | SessionOp.bind g n h => s.1.backend_insert s.2 g n h

/-- Whether a session operation is the client_close of the given client id. -/
def closesId : SessionOp → Nat → Bool
  | SessionOp.close c2, c => c2 == c
  | _, _ => false

/-- Well-formedness of the client side of a session table: client-map keys are
unique, every issued key is at most local_max_stmt_id, the free list holds no
duplicates, and every recycled id is at most local_max_stmt_id and not currently
mapped. -/
def WFclient (t : MySQL_STMTs_local_v14) : Prop :=
  (t.client_stmt_to_global_ids.map Prod.fst).Nodup ∧
  (∀ k ∈ t.client_stmt_to_global_ids.map Prod.fst, k ≤ t.local_max_stmt_id) ∧
  t.free_client_ids.Nodup ∧
  (∀ f ∈ t.free_client_ids,
    f ≤ t.local_max_stmt_id ∧ f ∉ t.client_stmt_to_global_ids.map Prod.fst)

/-!  ## Concrete states for the id-recycling scenario and for witnesses -/

/-- Intern the identity (n, "u", "s", "q", 1); the statements of the
id-recycling scenario are made pairwise distinct by their hostgroup. -/
def scenarioIntern (r : MySQL_STMT_Manager_v14) (n : Nat) :
    Nat × MySQL_STMT_Manager_v14 :=
  r.add_prepared_statement n "u" "s" "q" 1

/-- First intern on the empty registry. -/
def s2Intern1 : Nat × MySQL_STMT_Manager_v14 :=
  scenarioIntern MySQL_STMT_Manager_v14.empty 1

/-- Second intern (distinct statement). -/
def s2Intern2 : Nat × MySQL_STMT_Manager_v14 := scenarioIntern s2Intern1.2 2

/-- Third intern (distinct statement). -/
def s2Intern3 : Nat × MySQL_STMT_Manager_v14 := scenarioIntern s2Intern2.2 3

/-- Registry after closing the three interned statements (sole client reference
dropped through ref_count_client) in the order 1, 2, 3. -/
def s2Closed : MySQL_STMT_Manager_v14 :=
  ((s2Intern3.2.ref_count_client 1 (-1)).ref_count_client 2 (-1)).ref_count_client 3 (-1)

/-- First intern after the closes (a fresh statement). -/
def s2Re1 : Nat × MySQL_STMT_Manager_v14 := scenarioIntern s2Closed 4

/-- Second intern after the closes. -/
def s2Re2 : Nat × MySQL_STMT_Manager_v14 := scenarioIntern s2Re1.2 5

/-- Third intern after the closes. -/
def s2Re3 : Nat × MySQL_STMT_Manager_v14 := scenarioIntern s2Re2.2 6

/-- Fourth intern after the closes. -/
def s2Re4 : Nat × MySQL_STMT_Manager_v14 := scenarioIntern s2Re3.2 7

/-- Identity tuple used by concrete witness states. -/
def identW : StmtIdentity := ⟨1, "u", "s", "q", 1⟩

/-- A one-record registry: statement id 1, one client reference, no server
reference. -/
def regW : MySQL_STMT_Manager_v14 :=
  { next_statement_id := 2
    num_stmt_with_ref_client_count_zero := 0
    map_stmt_id_to_info := [(1, ⟨1, identW, 1, 0⟩)]
    map_stmt_hash_to_info := [(identW, 1)]
    free_stmt_ids := [] }

/-- A backend-side table holding a handle bound under the 64-bit global id
2^32 + 7 and another bound under the global id 7. -/
def tblBackendW : MySQL_STMTs_local_v14 :=
  { MySQL_STMTs_local_v14.empty false with
    global_stmt_to_backend_stmt := [(4294967303, 55), (7, 99)] }

/-- A client-side table in which the two client ids 3 and 4 both map to the
global id 7. -/
def tblClientPairW : MySQL_STMTs_local_v14 :=
  { MySQL_STMTs_local_v14.empty true with
    client_stmt_to_global_ids := [(3, 7), (4, 7)]
    global_stmt_to_client_ids := [(7, 3), (7, 4)]
    local_max_stmt_id := 4 }

/-- A session trace that issues another client id, closes an unrelated client
id and binds a backend statement. -/
def sessionOpsW : List SessionOp :=
  [SessionOp.gen 9, SessionOp.close 2, SessionOp.bind 7 5 11]

end ProxySQLPS

namespace ProxySQLPS

theorem assocLookup_eq_some_mem {κ α : Type} [DecidableEq κ]
    (m : List (κ × α)) (k : κ) (v : α) (h : assocLookup m k = some v) : (k, v) ∈ m := by
  induction m with
  | nil => simp [assocLookup] at h
  | cons p rest ih =>
    obtain ⟨pk, pv⟩ := p
    rw [assocLookup] at h
    by_cases hp : pk = k
    · subst hp
      simp at h
      simp [h]
    · simp [hp] at h
      exact List.mem_cons_of_mem _ (ih h)

theorem assocErase_length {κ α : Type} [DecidableEq κ]
    (m : List (κ × α)) (k : κ) (v : α) (h : assocLookup m k = some v) :
    (assocErase m k).length + 1 = m.length := by
  induction m with
  | nil => simp [assocLookup] at h
  | cons p rest ih =>
    rw [assocLookup] at h
    rw [assocErase]
    by_cases hp : p.1 = k
    · simp [hp]
    · simp only [if_neg hp] at h
      simp [hp, ih h]

theorem assocLookup_eq_none_iff {κ α : Type} [DecidableEq κ]
    (m : List (κ × α)) (k : κ) :
    assocLookup m k = none ↔ k ∉ m.map Prod.fst := by
  induction m with
  | nil => simp [assocLookup]
  | cons p rest ih =>
    rw [assocLookup]
    by_cases hp : p.1 = k
    · simp [hp]
    · simp only [if_neg hp, List.map_cons, List.mem_cons, ih]
      constructor
      · intro h hk
        rcases hk with hk | hk
        · exact hp hk.symm
        · exact h hk
      · intro h hk
        exact h (Or.inr hk)

theorem assocLookup_assocErase_ne {κ α : Type} [DecidableEq κ]
    (m : List (κ × α)) (k k2 : κ) (h : k2 ≠ k) :
    assocLookup (assocErase m k) k2 = assocLookup m k2 := by
  induction m with
  | nil => rfl
  | cons p rest ih =>
    rw [assocErase, assocLookup]
    by_cases hp : p.1 = k
    · have hne : p.1 ≠ k2 := by
        rw [hp]
        exact fun hc => h hc.symm
      rw [if_pos hp, if_neg hne]
    · rw [if_neg hp, assocLookup]
      by_cases hk2 : p.1 = k2
      · rw [if_pos hk2, if_pos hk2]
      · rw [if_neg hk2, if_neg hk2, ih]

theorem assocErase_keys_sublist {κ α : Type} [DecidableEq κ]
    (m : List (κ × α)) (k : κ) :
    ((assocErase m k).map Prod.fst).Sublist (m.map Prod.fst) := by
  induction m with
  | nil => simp [assocErase]
  | cons p rest ih =>
    rw [assocErase]
    by_cases hp : p.1 = k
    · simp [hp]
    · rw [if_neg hp]
      simpa using ih.cons₂ p.1

theorem not_mem_keys_assocErase_self {κ α : Type} [DecidableEq κ]
    (m : List (κ × α)) (k : κ) (h : (m.map Prod.fst).Nodup) :
    k ∉ (assocErase m k).map Prod.fst := by
  induction m with
  | nil => simp [assocErase]
  | cons p rest ih =>
    rw [assocErase]
    rw [List.map_cons, List.nodup_cons] at h
    by_cases hp : p.1 = k
    · rw [if_pos hp]
      rw [hp] at h
      exact h.1
    · rw [if_neg hp]
      rw [List.map_cons, List.mem_cons]
      intro hc
      rcases hc with hc | hc
      · exact hp hc.symm
      · exact ih h.2 hc

theorem assocLookup_assocErase_self {κ α : Type} [DecidableEq κ]
    (m : List (κ × α)) (k : κ) (h : (m.map Prod.fst).Nodup) :
    assocLookup (assocErase m k) k = none :=
  (assocLookup_eq_none_iff _ _).mpr (not_mem_keys_assocErase_self m k h)

theorem assocLookup_assocSet_self {κ α : Type} [DecidableEq κ]
    (m : List (κ × α)) (k : κ) (v w : α) (h : assocLookup m k = some w) :
    assocLookup (assocSet m k v) k = some v := by
  induction m with
  | nil => simp [assocLookup] at h
  | cons p rest ih =>
    rw [assocLookup] at h
    rw [assocSet]
    by_cases hp : p.1 = k
    · rw [if_pos hp, assocLookup, if_pos rfl]
    · rw [if_neg hp] at h
      rw [if_neg hp, assocLookup, if_neg hp, ih h]

theorem mem_assocSet {κ α : Type} [DecidableEq κ]
    (p : κ × α) (m : List (κ × α)) (k : κ) (v : α) (h : p ∈ assocSet m k v) :
    p ∈ m ∨ p = (k, v) := by
  induction m with
  | nil => simp [assocSet] at h
  | cons q rest ih =>
    rw [assocSet] at h
    by_cases hq : q.1 = k
    · rw [if_pos hq, List.mem_cons] at h
      rcases h with h | h
      · exact Or.inr h
      · exact Or.inl (List.mem_cons_of_mem _ h)
    · rw [if_neg hq, List.mem_cons] at h
      rcases h with h | h
      · exact Or.inl (h ▸ List.mem_cons_self q rest)
      · rcases ih h with h2 | h2
        · exact Or.inl (List.mem_cons_of_mem _ h2)
        · exact Or.inr h2

theorem mem_assocErase {κ α : Type} [DecidableEq κ]
    (p : κ × α) (m : List (κ × α)) (k : κ) (h : p ∈ assocErase m k) : p ∈ m := by
  induction m with
  | nil => simp [assocErase] at h
  | cons q rest ih =>
    rw [assocErase] at h
    by_cases hq : q.1 = k
    · rw [if_pos hq] at h
      exact List.mem_cons_of_mem _ h
    · rw [if_neg hq, List.mem_cons] at h
      rcases h with h | h
      · exact h ▸ List.mem_cons_self q rest
      · exact List.mem_cons_of_mem _ (ih h)

theorem assocInsertIfAbsent_of_isSome {κ α : Type} [DecidableEq κ]
    (m : List (κ × α)) (k : κ) (v : α) (h : (assocLookup m k).isSome) :
    assocInsertIfAbsent m k v = (m, false) := by
  unfold assocInsertIfAbsent
  cases hl : assocLookup m k with
  | none => rw [hl] at h; simp at h
  | some w => rfl

theorem assocInsertIfAbsent_isSome {κ α : Type} [DecidableEq κ]
    (m : List (κ × α)) (k : κ) (v : α) :
    (assocLookup (assocInsertIfAbsent m k v).1 k).isSome := by
  unfold assocInsertIfAbsent
  cases hl : assocLookup m k with
  | none => simp [assocLookup]
  | some w => simp [hl]

theorem meta_step_num_entries (t : MySQL_STMTs_meta) (op : MetaOp)
    (h : t.num_entries = t.m.length % U32) :
    (applyMetaOp t op).num_entries = (applyMetaOp t op).m.length % U32 := by
  cases op with
  | ins g v =>
    simp only [applyMetaOp, MySQL_STMTs_meta.insert, assocInsertIfAbsent]
    cases hl : assocLookup t.m (g % U32) with
    | some w => simpa using h
    | none =>
      simp only [List.length_cons, h]
      simp only [U32]
      omega
  | del g =>
    simp only [applyMetaOp, MySQL_STMTs_meta.erase]
    cases hl : assocLookup t.m (g % U32) with
    | some w =>
      have hlen := assocErase_length t.m (g % U32) w hl
      simp only [h]
      simp only [U32] at hlen ⊢
      omega
    | none => exact h

theorem meta_fold_num_entries (ops : List MetaOp) :
    ∀ t : MySQL_STMTs_meta, t.num_entries = t.m.length % U32 →
      (List.foldl applyMetaOp t ops).num_entries =
        (List.foldl applyMetaOp t ops).m.length % U32 := by
  induction ops with
  | nil => intro t h; simpa using h
  | cons op rest ih =>
    intro t h
    simpa using ih (applyMetaOp t op) (meta_step_num_entries t op h)

theorem runMeta_insert_seq_succ (n : Nat) :
    runMeta (metaInsertSeq (n + 1)) = (runMeta (metaInsertSeq n)).insert n 0 := by
  simp [runMeta, metaInsertSeq, List.range_succ, applyMetaOp]

theorem runMeta_insert_seq_spec (n : Nat) (hn : n ≤ U32) :
    (runMeta (metaInsertSeq n)).m.length = n ∧
    (runMeta (metaInsertSeq n)).num_entries = n % U32 ∧
    ∀ k : Nat, assocLookup (runMeta (metaInsertSeq n)).m k =
      if k < n then some 0 else none := by
  induction n with
  | zero =>
    refine ⟨rfl, rfl, ?_⟩
    intro k
    simp [runMeta, metaInsertSeq, MySQL_STMTs_meta.empty, assocLookup]
  | succ n ih =>
    obtain ⟨hlen, hnum, hlook⟩ := ih (Nat.le_of_succ_le hn)
    have hklt : n < U32 := Nat.lt_of_lt_of_le (Nat.lt_succ_self n) hn
    have hkey : n % U32 = n := Nat.mod_eq_of_lt hklt
    have hmiss : assocLookup (runMeta (metaInsertSeq n)).m (n % U32) = none := by
      rw [hkey, hlook n]
      simp
    rw [runMeta_insert_seq_succ n]
    simp only [MySQL_STMTs_meta.insert, assocInsertIfAbsent, hmiss]
    refine ⟨by simp [hlen], ?_, ?_⟩
    · simp only [hnum]
      simp only [U32]
      omega
    · intro k
      simp only [assocLookup, hkey]
      by_cases hk : n = k
      · subst hk
        simp
      · simp only [if_neg hk, hlook k]
        by_cases hlt : k < n
        · rw [if_pos hlt, if_pos (Nat.lt_succ_of_lt hlt)]
        · rw [if_neg hlt, if_neg (by omega)]

/-- C9: FALSE as stated at one (astronomically large but well-defined) input: after
the sequence of 2^32 inserts with pairwise distinct uint32 keys, the 32-bit
counter num_entries has wrapped to 0 while the map holds 2^32 entries. -/
theorem meta_num_entries_counterexample :
    (runMeta (metaInsertSeq U32)).num_entries ≠ (runMeta (metaInsertSeq U32)).m.length := by
  obtain ⟨hlen, hnum, -⟩ := runMeta_insert_seq_spec U32 (Nat.le_refl U32)
  rw [hlen, hnum, Nat.mod_self]
  simp [U32]

/-- C9 (amended): after every sequence of insert and erase operations on a fresh
MySQL_STMTs_meta, num_entries equals the size of the internal map m reduced
modulo 2^32 (insert increments the counter only when the key was newly inserted,
erase decrements it only when the key was present; the two agree on the nose
whenever the map holds fewer than 2^32 entries). -/
theorem meta_num_entries_eq_size_mod (ops : List MetaOp) :
    (runMeta ops).num_entries = (runMeta ops).m.length % U32 :=
  meta_fold_num_entries ops MySQL_STMTs_meta.empty rfl

/-- C1: FALSE as stated: with the entry (5, meta 100) present, insert(5, meta 200)
does not replace it — a subsequent find(5) returns the prior meta 100, not 200. -/
theorem meta_insert_replace_counterexample :
    ((⟨1, [(5, 100)]⟩ : MySQL_STMTs_meta).insert 5 200).find 5 = some 100 ∧
    ((⟨1, [(5, 100)]⟩ : MySQL_STMTs_meta).insert 5 200).find 5 ≠ some 200 := by
  constructor
  · decide
  · decide

/-- C1 (amended): for every MySQL_STMTs_meta state and every global id already
present in the map, insert(g, new_meta) retains the prior entry and is a no-op
on the table state (std::map::insert does not overwrite), so a subsequent
find(g) returns the prior meta, not new_meta. -/
theorem meta_insert_keeps_prior (t : MySQL_STMTs_meta) (g vOld vNew : Nat)
    (h : t.find g = some vOld) :
    t.insert g vNew = t ∧ (t.insert g vNew).find g = some vOld := by
  have hm : assocLookup t.m (g % U32) = some vOld := h
  have hins : t.insert g vNew = t := by
    simp only [MySQL_STMTs_meta.insert, assocInsertIfAbsent, hm]
  exact ⟨hins, by rw [hins]; exact h⟩

theorem meta_insert_keeps_prior_witness :
    (⟨1, [(5, 100)]⟩ : MySQL_STMTs_meta).find 5 = some 100 ∧
    ((⟨1, [(5, 100)]⟩ : MySQL_STMTs_meta).insert 5 200 = ⟨1, [(5, 100)]⟩ ∧
      ((⟨1, [(5, 100)]⟩ : MySQL_STMTs_meta).insert 5 200).find 5 = some 100) :=
  ⟨by decide, meta_insert_keeps_prior ⟨1, [(5, 100)]⟩ 5 100 200 (by decide)⟩

/-- C5: FALSE as stated: with the empty registry, interning three distinct
statements yields ids 1, 2, 3, and after closing all three (order 1, 2, 3) the
freed ids 1, 2, 3 all sit on the LIFO stack, so the first two new interns pop 3
and 2 as claimed, but the third pops the remaining recycled id 1 — it does not
receive the fresh id 4. -/
theorem stmt_id_recycling_counterexample : s2Re3.1 = 1 ∧ s2Re3.1 ≠ 4 := by decide

/-- C5 (amended): global ids are allocated from 1, monotonically, with freed ids
pushed on a LIFO stack and reused ahead of monotonic allocation: from the empty
registry three distinct interns receive 1, 2, 3; closing all three (in order
1, 2, 3) leaves the recycle stack [3, 2, 1]; the next interns receive 3, then 2,
then 1, and only the fourth — once the stack is exhausted — receives the fresh
id 4. -/
theorem stmt_id_recycling_lifo :
    s2Intern1.1 = 1 ∧ s2Intern2.1 = 2 ∧ s2Intern3.1 = 3 ∧
    s2Closed.free_stmt_ids = [3, 2, 1] ∧
    s2Re1.1 = 3 ∧ s2Re2.1 = 2 ∧ s2Re3.1 = 1 ∧ s2Re4.1 = 4 := by decide

/-- C3: for every registry state in which the identity tuple T = (hostgroup,
user, schema, query, query_length) is not yet interned, calling
add_prepared_statement twice with T returns the same global id both times and
leaves the record's client refcount equal to 2. -/
theorem add_prepared_statement_idempotent (r : MySQL_STMT_Manager_v14)
    (hostgroup : Nat) (user schema query : String) (query_length : Nat)
    (hmiss : assocLookup r.map_stmt_hash_to_info
      (⟨hostgroup, user, schema, query, query_length⟩ : StmtIdentity) = none) :
    ((r.add_prepared_statement hostgroup user schema query query_length).2.add_prepared_statement
        hostgroup user schema query query_length).1 =
      (r.add_prepared_statement hostgroup user schema query query_length).1 ∧
    refClientOf
      ((r.add_prepared_statement hostgroup user schema query
          query_length).2.add_prepared_statement hostgroup user schema query query_length).2
      (r.add_prepared_statement hostgroup user schema query query_length).1 = some 2 := by
  cases hf : r.free_stmt_ids with
  | nil =>
    constructor <;>
      simp [MySQL_STMT_Manager_v14.add_prepared_statement, hmiss, hf, assocLookup,
        assocSet, refClientOf, one_add_one_eq_two]
  | cons i rest =>
    constructor <;>
      simp [MySQL_STMT_Manager_v14.add_prepared_statement, hmiss, hf, assocLookup,
        assocSet, refClientOf, one_add_one_eq_two]

theorem add_prepared_statement_idempotent_witness :
    assocLookup MySQL_STMT_Manager_v14.empty.map_stmt_hash_to_info
      (⟨1, "u", "s", "q", 1⟩ : StmtIdentity) = none ∧
    (((MySQL_STMT_Manager_v14.empty.add_prepared_statement 1 "u" "s" "q"
          1).2.add_prepared_statement 1 "u" "s" "q" 1).1 =
        (MySQL_STMT_Manager_v14.empty.add_prepared_statement 1 "u" "s" "q" 1).1 ∧
      refClientOf
        ((MySQL_STMT_Manager_v14.empty.add_prepared_statement 1 "u" "s" "q"
            1).2.add_prepared_statement 1 "u" "s" "q" 1).2
        (MySQL_STMT_Manager_v14.empty.add_prepared_statement 1 "u" "s" "q" 1).1 = some 2) :=
  ⟨rfl, add_prepared_statement_idempotent MySQL_STMT_Manager_v14.empty 1 "u" "s" "q" 1 rfl⟩

/-- C2: for every registry satisfying the claimed invariant (every present
record has client_refs >= 0 and server_refs >= 0, and no present record has both
refcounts zero) and every refcount adjustment through ref_count_client or
ref_count_server, the invariant is preserved, and for the adjusted record the
removal from the id index and the push of its id onto the recycle stack each
happen exactly when both (adjusted) refcounts are zero. -/
theorem registry_refcount_invariant (r : MySQL_STMT_Manager_v14) (stmt_id : Nat) (v : Int)
    (info : MySQL_STMT_Global_info) (hnd : RegKeysNodup r) (hinv : RegInv r)
    (hl : assocLookup r.map_stmt_id_to_info stmt_id = some info) :
    RegInv (r.ref_count_client stmt_id v) ∧
    RegInv (r.ref_count_server stmt_id v) ∧
    ((max (info.ref_count_client + v) 0 = 0 ∧ info.ref_count_server = 0) ↔
      assocLookup (r.ref_count_client stmt_id v).map_stmt_id_to_info stmt_id = none) ∧
    ((max (info.ref_count_client + v) 0 = 0 ∧ info.ref_count_server = 0) ↔
      (r.ref_count_client stmt_id v).free_stmt_ids = stmt_id :: r.free_stmt_ids) ∧
    ((info.ref_count_client = 0 ∧ max (info.ref_count_server + v) 0 = 0) ↔
      assocLookup (r.ref_count_server stmt_id v).map_stmt_id_to_info stmt_id = none) ∧
    ((info.ref_count_client = 0 ∧ max (info.ref_count_server + v) 0 = 0) ↔
      (r.ref_count_server stmt_id v).free_stmt_ids = stmt_id :: r.free_stmt_ids) := by
  have hmem : (stmt_id, info) ∈ r.map_stmt_id_to_info := assocLookup_eq_some_mem _ _ _ hl
  have hfne : r.free_stmt_ids ≠ stmt_id :: r.free_stmt_ids := by
    intro h
    have := congrArg List.length h
    simp at this
  refine ⟨?_, ?_, ?_, ?_, ?_, ?_⟩
  · simp only [MySQL_STMT_Manager_v14.ref_count_client, hl]
    by_cases hz : max (info.ref_count_client + v) 0 = 0 ∧ info.ref_count_server = 0
    · rw [if_pos hz]
      intro p hp
      exact hinv p (mem_assocErase p _ _ hp)
    · rw [if_neg hz]
      intro p hp
      rcases mem_assocSet p _ _ _ hp with hin | heq
      · exact hinv p hin
      · rw [heq]
        exact ⟨le_max_right _ _, (hinv _ hmem).2.1, fun hc => hz ⟨hc.1, hc.2⟩⟩
  · simp only [MySQL_STMT_Manager_v14.ref_count_server, hl]
    by_cases hz : info.ref_count_client = 0 ∧ max (info.ref_count_server + v) 0 = 0
    · rw [if_pos hz]
      intro p hp
      exact hinv p (mem_assocErase p _ _ hp)
    · rw [if_neg hz]
      intro p hp
      rcases mem_assocSet p _ _ _ hp with hin | heq
      · exact hinv p hin
      · rw [heq]
        exact ⟨(hinv _ hmem).1, le_max_right _ _, fun hc => hz ⟨hc.1, hc.2⟩⟩
  · simp only [MySQL_STMT_Manager_v14.ref_count_client, hl]
    by_cases hz : max (info.ref_count_client + v) 0 = 0 ∧ info.ref_count_server = 0
    · rw [if_pos hz]
      exact iff_of_true hz (assocLookup_assocErase_self _ _ hnd)
    · rw [if_neg hz]
      refine iff_of_false hz ?_
      intro hnone
      rw [assocLookup_assocSet_self r.map_stmt_id_to_info stmt_id _ info hl] at hnone
      exact Option.noConfusion hnone
  · simp only [MySQL_STMT_Manager_v14.ref_count_client, hl]
    by_cases hz : max (info.ref_count_client + v) 0 = 0 ∧ info.ref_count_server = 0
    · rw [if_pos hz]
      exact iff_of_true hz rfl
    · rw [if_neg hz]
      exact iff_of_false hz hfne
  · simp only [MySQL_STMT_Manager_v14.ref_count_server, hl]
    by_cases hz : info.ref_count_client = 0 ∧ max (info.ref_count_server + v) 0 = 0
    · rw [if_pos hz]
      exact iff_of_true hz (assocLookup_assocErase_self _ _ hnd)
    · rw [if_neg hz]
      refine iff_of_false hz ?_
      intro hnone
      rw [assocLookup_assocSet_self r.map_stmt_id_to_info stmt_id _ info hl] at hnone
      exact Option.noConfusion hnone
  · simp only [MySQL_STMT_Manager_v14.ref_count_server, hl]
    by_cases hz : info.ref_count_client = 0 ∧ max (info.ref_count_server + v) 0 = 0
    · rw [if_pos hz]
      exact iff_of_true hz rfl
    · rw [if_neg hz]
      exact iff_of_false hz hfne

theorem registry_refcount_invariant_witness :
    RegKeysNodup regW ∧ RegInv regW ∧
    assocLookup regW.map_stmt_id_to_info 1 = some ⟨1, identW, 1, 0⟩ ∧
    (RegInv (regW.ref_count_client 1 (-1)) ∧
     RegInv (regW.ref_count_server 1 (-1)) ∧
     ((max (1 + (-1) : Int) 0 = 0 ∧ (0 : Int) = 0) ↔
       assocLookup (regW.ref_count_client 1 (-1)).map_stmt_id_to_info 1 = none) ∧
     ((max (1 + (-1) : Int) 0 = 0 ∧ (0 : Int) = 0) ↔
       (regW.ref_count_client 1 (-1)).free_stmt_ids = 1 :: regW.free_stmt_ids) ∧
     (((1 : Int) = 0 ∧ max (0 + (-1) : Int) 0 = 0) ↔
       assocLookup (regW.ref_count_server 1 (-1)).map_stmt_id_to_info 1 = none) ∧
     (((1 : Int) = 0 ∧ max (0 + (-1) : Int) 0 = 0) ↔
       (regW.ref_count_server 1 (-1)).free_stmt_ids = 1 :: regW.free_stmt_ids)) :=
  ⟨by unfold RegKeysNodup; decide, by unfold RegInv; decide, rfl,
   registry_refcount_invariant regW 1 (-1) ⟨1, identW, 1, 0⟩
     (by unfold RegKeysNodup; decide) (by unfold RegInv; decide) rfl⟩

theorem mem_keys_of_assocLookup {κ α : Type} [DecidableEq κ]
    (m : List (κ × α)) (k : κ) (v : α) (h : assocLookup m k = some v) :
    k ∈ m.map Prod.fst :=
  List.mem_map_of_mem Prod.fst (assocLookup_eq_some_mem m k v h)

/-- C7: binding the same (global id, native statement) pair a second time on a
backend connection is idempotent: all three backend maps and the registry are
left exactly as the first bind left them; in particular the duplicate call does
not change the server refcount. -/
theorem backend_insert_idempotent (t : MySQL_STMTs_local_v14)
    (reg : MySQL_STMT_Manager_v14) (g n h : Nat) :
    (t.backend_insert reg g n h).1.backend_insert (t.backend_insert reg g n h).2 g n h =
      t.backend_insert reg g n h := by
  have h1 := assocInsertIfAbsent_of_isSome
    (assocInsertIfAbsent t.backend_stmt_to_global_ids (n % U32) g).1 (n % U32) g
    (assocInsertIfAbsent_isSome _ _ _)
  have h2 := assocInsertIfAbsent_of_isSome
    (assocInsertIfAbsent t.global_stmt_to_backend_ids g (n % U32)).1 g (n % U32)
    (assocInsertIfAbsent_isSome _ _ _)
  have h3 := assocInsertIfAbsent_of_isSome
    (assocInsertIfAbsent t.global_stmt_to_backend_stmt g h).1 g h
    (assocInsertIfAbsent_isSome _ _ _)
  simp [MySQL_STMTs_local_v14.backend_insert, h1, h2, h3]

/-- C10: find_backend_stmt_by_global_id declares its parameter uint32_t while
global_stmt_to_backend_stmt is keyed by 64-bit global ids, so the lookup runs
with the caller's global id reduced modulo 2^32, and two global ids congruent
modulo 2^32 are indistinguishable to this lookup. -/
theorem find_backend_stmt_truncates (t : MySQL_STMTs_local_v14) (g1 g2 : Nat)
    (hcong : g1 % U32 = g2 % U32) :
    t.find_backend_stmt_by_global_id g1 =
      assocLookup t.global_stmt_to_backend_stmt (g1 % U32) ∧
    t.find_backend_stmt_by_global_id g1 = t.find_backend_stmt_by_global_id g2 := by
  refine ⟨rfl, ?_⟩
  unfold MySQL_STMTs_local_v14.find_backend_stmt_by_global_id
  rw [hcong]

theorem find_backend_stmt_truncates_witness :
    (4294967303 : Nat) % U32 = 7 % U32 ∧
    (tblBackendW.find_backend_stmt_by_global_id 4294967303 =
        assocLookup tblBackendW.global_stmt_to_backend_stmt (4294967303 % U32) ∧
      tblBackendW.find_backend_stmt_by_global_id 4294967303 =
        tblBackendW.find_backend_stmt_by_global_id 7) :=
  ⟨by decide, find_backend_stmt_truncates tblBackendW 4294967303 7 (by decide)⟩

theorem countP_filter_key (mm : List (Nat × Nat)) (g c : Nat) :
    (mm.filter (fun p => decide (¬(p.1 = g ∧ p.2 = c)))).countP
        (fun p => decide (p.1 = g)) =
      mm.countP (fun p => decide (p.1 = g ∧ p.2 ≠ c)) := by
  rw [List.countP_eq_length_filter, List.countP_eq_length_filter, List.filter_filter]
  congr 1
  apply List.filter_congr
  intro a _
  by_cases h1 : a.1 = g <;> by_cases h2 : a.2 = c <;> simp [h1, h2]

/-- C6: closing an unknown client id returns false and leaves the session table
and the registry untouched; closing a mapped client id removes the pair from
both maps, pushes the id on the free list, returns true, and runs the
registry's ref_count_client(g, -1) exactly when no other client id of this
session still maps to the same global id. -/
theorem client_close_spec (t : MySQL_STMTs_local_v14) (reg : MySQL_STMT_Manager_v14)
    (c g : Nat) (hnd : (t.client_stmt_to_global_ids.map Prod.fst).Nodup) :
    (assocLookup t.client_stmt_to_global_ids c = none →
      t.client_close reg c = (false, t, reg)) ∧
    (assocLookup t.client_stmt_to_global_ids c = some g →
      ((t.client_close reg c).1 = true ∧
        (t.client_close reg c).2.1.find_global_stmt_id_from_client c = none ∧
        (g, c) ∉ (t.client_close reg c).2.1.global_stmt_to_client_ids ∧
        (t.client_close reg c).2.1.free_client_ids = c :: t.free_client_ids ∧
        (t.global_stmt_to_client_ids.countP (fun p => decide (p.1 = g ∧ p.2 ≠ c)) = 0 →
          (t.client_close reg c).2.2 = reg.ref_count_client g (-1)) ∧
        (t.global_stmt_to_client_ids.countP (fun p => decide (p.1 = g ∧ p.2 ≠ c)) ≠ 0 →
          (t.client_close reg c).2.2 = reg))) := by
  constructor
  · intro h
    simp only [MySQL_STMTs_local_v14.client_close, h]
  · intro h
    simp only [MySQL_STMTs_local_v14.client_close, h]
    dsimp only [MySQL_STMTs_local_v14.find_global_stmt_id_from_client]
    refine ⟨by trivial, ?_, ?_, by trivial, ?_, ?_⟩
    · exact assocLookup_assocErase_self _ _ hnd
    · intro hmem
      rcases List.mem_filter.mp hmem with ⟨-, hpred⟩
      simp at hpred
    · intro hc0
      rw [countP_filter_key, hc0, if_pos rfl]
    · intro hc0
      rw [countP_filter_key, if_neg hc0]

theorem client_close_spec_witness :
    (tblClientPairW.client_stmt_to_global_ids.map Prod.fst).Nodup ∧
    ((assocLookup tblClientPairW.client_stmt_to_global_ids 3 = none →
        tblClientPairW.client_close regW 3 = (false, tblClientPairW, regW)) ∧
      (assocLookup tblClientPairW.client_stmt_to_global_ids 3 = some 7 →
        ((tblClientPairW.client_close regW 3).1 = true ∧
          (tblClientPairW.client_close regW 3).2.1.find_global_stmt_id_from_client 3 =
            none ∧
          (7, 3) ∉ (tblClientPairW.client_close regW 3).2.1.global_stmt_to_client_ids ∧
          (tblClientPairW.client_close regW 3).2.1.free_client_ids =
            3 :: tblClientPairW.free_client_ids ∧
          (tblClientPairW.global_stmt_to_client_ids.countP
              (fun p => decide (p.1 = 7 ∧ p.2 ≠ 3)) = 0 →
            (tblClientPairW.client_close regW 3).2.2 = regW.ref_count_client 7 (-1)) ∧
          (tblClientPairW.global_stmt_to_client_ids.countP
              (fun p => decide (p.1 = 7 ∧ p.2 ≠ 3)) ≠ 0 →
            (tblClientPairW.client_close regW 3).2.2 = regW)))) :=
  ⟨by decide, client_close_spec tblClientPairW regW 3 7 (by decide)⟩

theorem generate_wf (t : MySQL_STMTs_local_v14) (g : Nat) (hwf : WFclient t) :
    WFclient (t.generate_new_client_stmt_id g).2 ∧
    assocLookup (t.generate_new_client_stmt_id g).2.client_stmt_to_global_ids
      (t.generate_new_client_stmt_id g).1 = some g ∧
    (∀ c0 g0, assocLookup t.client_stmt_to_global_ids c0 = some g0 →
      assocLookup (t.generate_new_client_stmt_id g).2.client_stmt_to_global_ids c0 =
        some g0) := by
  obtain ⟨hk, hbound, hfdup, hfree⟩ := hwf
  cases hfc : t.free_client_ids with
  | nil =>
    simp only [MySQL_STMTs_local_v14.generate_new_client_stmt_id, hfc]
    unfold WFclient
    dsimp only
    refine ⟨⟨?_, ?_, ?_, ?_⟩, ?_, ?_⟩
    · rw [List.map_cons, List.nodup_cons]
      exact ⟨fun hmem => by have := hbound _ hmem; omega, hk⟩
    · intro k hkm
      rw [List.map_cons, List.mem_cons] at hkm
      rcases hkm with hkm | hkm
      · omega
      · have := hbound _ hkm; omega
    · exact List.nodup_nil
    · intro f hf
      exact absurd hf (List.not_mem_nil f)
    · rw [assocLookup]
      dsimp only
      rw [if_pos rfl]
    · intro c0 g0 h0
      have hc0 : c0 ≤ t.local_max_stmt_id := hbound _ (mem_keys_of_assocLookup _ _ _ h0)
      have hne : (t.local_max_stmt_id + 1 : Nat) ≠ c0 := by omega
      rw [assocLookup]
      dsimp only
      rw [if_neg hne]
      exact h0
  | cons f rest =>
    have hfmem : f ∈ t.free_client_ids := by rw [hfc]; exact List.mem_cons_self f rest
    have hfdup2 : (f :: rest).Nodup := hfc ▸ hfdup
    rcases hfree f hfmem with ⟨hfle, hfnk⟩
    simp only [MySQL_STMTs_local_v14.generate_new_client_stmt_id, hfc]
    unfold WFclient
    dsimp only
    refine ⟨⟨?_, ?_, ?_, ?_⟩, ?_, ?_⟩
    · rw [List.map_cons, List.nodup_cons]
      exact ⟨hfnk, hk⟩
    · intro k hkm
      rw [List.map_cons, List.mem_cons] at hkm
      rcases hkm with hkm | hkm
      · omega
      · exact hbound _ hkm
    · exact (List.nodup_cons.mp hfdup2).2
    · intro f2 hf2
      have hf2mem : f2 ∈ t.free_client_ids := by
        rw [hfc]; exact List.mem_cons_of_mem f hf2
      rcases hfree f2 hf2mem with ⟨hf21, hf22⟩
      refine ⟨hf21, ?_⟩
      rw [List.map_cons, List.mem_cons]
      rintro (hc | hc)
      · have hcf : f2 = f := hc
        exact (List.nodup_cons.mp hfdup2).1 (hcf ▸ hf2)
      · exact hf22 hc
    · rw [assocLookup]
      dsimp only
      rw [if_pos rfl]
    · intro c0 g0 h0
      have hc0k : c0 ∈ t.client_stmt_to_global_ids.map Prod.fst :=
        mem_keys_of_assocLookup _ _ _ h0
      have hne : f ≠ c0 := fun hc => hfnk (hc ▸ hc0k)
      rw [assocLookup]
      dsimp only
      rw [if_neg hne]
      exact h0

theorem close_keeps_mapping (t : MySQL_STMTs_local_v14) (reg : MySQL_STMT_Manager_v14)
    (c c2 g : Nat) (hwf : WFclient t)
    (hmap : assocLookup t.client_stmt_to_global_ids c = some g) (hne : c2 ≠ c) :
    WFclient (t.client_close reg c2).2.1 ∧
    assocLookup (t.client_close reg c2).2.1.client_stmt_to_global_ids c = some g := by
  obtain ⟨hk, hbound, hfdup, hfree⟩ := hwf
  cases hl2 : assocLookup t.client_stmt_to_global_ids c2 with
  | none =>
    simp only [MySQL_STMTs_local_v14.client_close, hl2]
    exact ⟨⟨hk, hbound, hfdup, hfree⟩, hmap⟩
  | some g2 =>
    have hc2k : c2 ∈ t.client_stmt_to_global_ids.map Prod.fst :=
      mem_keys_of_assocLookup _ _ _ hl2
    have hsub := assocErase_keys_sublist t.client_stmt_to_global_ids c2
    simp only [MySQL_STMTs_local_v14.client_close, hl2]
    unfold WFclient
    dsimp only
    refine ⟨⟨?_, ?_, ?_, ?_⟩, ?_⟩
    · exact List.Nodup.sublist hsub hk
    · intro k hkm
      exact hbound _ (hsub.subset hkm)
    · rw [List.nodup_cons]
      refine ⟨fun hc => ?_, hfdup⟩
      exact (hfree c2 hc).2 hc2k
    · intro f hf
      rw [List.mem_cons] at hf
      rcases hf with hf | hf
      · subst hf
        exact ⟨hbound _ hc2k, not_mem_keys_assocErase_self _ _ hk⟩
      · rcases hfree f hf with ⟨hf1, hf2⟩
        exact ⟨hf1, fun hc => hf2 (hsub.subset hc)⟩
    · rw [assocLookup_assocErase_ne _ c2 c (Ne.symm hne)]
      exact hmap

theorem sessionOp_keeps_mapping (s : MySQL_STMTs_local_v14 × MySQL_STMT_Manager_v14)
    (op : SessionOp) (c g : Nat) (hwf : WFclient s.1)
    (hmap : assocLookup s.1.client_stmt_to_global_ids c = some g)
    (hop : closesId op c = false) :
    WFclient (applySessionOp s op).1 ∧
    assocLookup (applySessionOp s op).1.client_stmt_to_global_ids c = some g := by
  cases op with
  | gen g2 =>
    have hg := generate_wf s.1 g2 hwf
    exact ⟨hg.1, hg.2.2 c g hmap⟩
  | close c2 =>
    have hne : c2 ≠ c := by simpa [closesId] using hop
    exact close_keeps_mapping s.1 s.2 c c2 g hwf hmap hne
  | bind g2 n h =>
    exact ⟨hwf, hmap⟩

theorem sessionOps_keep_mapping (ops : List SessionOp) :
    ∀ s : MySQL_STMTs_local_v14 × MySQL_STMT_Manager_v14, ∀ c g : Nat,
      WFclient s.1 → assocLookup s.1.client_stmt_to_global_ids c = some g →
      (∀ op ∈ ops, closesId op c = false) →
      assocLookup (List.foldl applySessionOp s ops).1.client_stmt_to_global_ids c =
        some g := by
  induction ops with
  | nil =>
    intro s c g hwf hmap hops
    simpa using hmap
  | cons op rest ih =>
    intro s c g hwf hmap hops
    have hstep := sessionOp_keeps_mapping s op c g hwf hmap (hops op (List.mem_cons_self _ _))
    simpa using ih (applySessionOp s op) c g hstep.1 hstep.2
      (fun o ho => hops o (List.mem_cons_of_mem _ ho))

/-- C4: for every well-formed client session table, every client id issued by
generate_new_client_stmt_id(g) satisfies find_global_stmt_id_from_client
(client_id) = g in every state reached by further session operations, as long
as none of them is the client_close of that client id. -/
theorem client_id_round_trip (t : MySQL_STMTs_local_v14) (reg : MySQL_STMT_Manager_v14)
    (g : Nat) (ops : List SessionOp) (hwf : WFclient t)
    (hops : ∀ op ∈ ops, closesId op (t.generate_new_client_stmt_id g).1 = false) :
    (List.foldl applySessionOp ((t.generate_new_client_stmt_id g).2, reg)
          ops).1.find_global_stmt_id_from_client
        (t.generate_new_client_stmt_id g).1 = some g := by
  have hg := generate_wf t g hwf
  exact sessionOps_keep_mapping ops ((t.generate_new_client_stmt_id g).2, reg)
    (t.generate_new_client_stmt_id g).1 g hg.1 hg.2.1 hops

theorem resetLongDatas_spec (l : List stmt_long_data_t) (s : Nat) :
    (resetLongDatas l s).1 = l.countP (fun r => decide (r.stmt_id = s)) ∧
    (resetLongDatas l s).2 = l.filter (fun r => decide (¬(r.stmt_id = s))) := by
  induction l with
  | nil => exact ⟨rfl, rfl⟩
  | cons r rest ih =>
    rw [resetLongDatas]
    by_cases hr : r.stmt_id = s
    · simp [hr, List.countP_cons, List.filter_cons, ih.1, ih.2]
    · simp [hr, List.countP_cons, List.filter_cons, ih.1, ih.2]

theorem addAll_long_datas (reqs : List stmt_long_data_t) :
    ∀ h : StmtLongDataHandler,
      (addAll h reqs).long_datas =
        h.long_datas ++
          reqs.map (fun r =>
            (⟨r.stmt_id % U32, r.param_id % U16, r.data, r.is_null⟩ : stmt_long_data_t)) := by
  induction reqs with
  | nil =>
    intro h
    simp [addAll]
  | cons r rest ih =>
    intro h
    rw [show addAll h (r :: rest) =
          addAll (h.add r.stmt_id r.param_id r.data r.is_null) rest from rfl, ih]
    simp [StmtLongDataHandler.add]

/-- C8: for every long-data buffer state and every statement id s, after any
further sequence of adds, reset(s) returns exactly the number of records held
for s — the ones of the prior state plus the ones just added under s, none of
them yet removed — and afterwards no record for s remains in the buffer. -/
theorem long_data_reset_counts (h0 : StmtLongDataHandler)
    (reqs : List stmt_long_data_t) (s : Nat) :
    ((addAll h0 reqs).reset s).1 =
      h0.long_datas.countP (fun r => decide (r.stmt_id = s % U32)) +
        reqs.countP (fun r => decide (r.stmt_id % U32 = s % U32)) ∧
    ((addAll h0 reqs).reset s).2.long_datas.countP
        (fun r => decide (r.stmt_id = s % U32)) = 0 := by
  have hads := addAll_long_datas reqs h0
  have hspec := resetLongDatas_spec (addAll h0 reqs).long_datas (s % U32)
  constructor
  · rw [show ((addAll h0 reqs).reset s).1 =
          (resetLongDatas (addAll h0 reqs).long_datas (s % U32)).1 from rfl,
        hspec.1, hads, List.countP_append, List.countP_map]
    rfl
  · rw [show ((addAll h0 reqs).reset s).2.long_datas =
          (resetLongDatas (addAll h0 reqs).long_datas (s % U32)).2 from rfl,
        hspec.2, List.countP_eq_zero]
    intro r hr
    rcases List.mem_filter.mp hr with ⟨-, hpred⟩
    simp at hpred ⊢
    exact hpred

theorem client_id_round_trip_witness :
    WFclient (MySQL_STMTs_local_v14.empty true) ∧
    (∀ op ∈ sessionOpsW,
      closesId op ((MySQL_STMTs_local_v14.empty true).generate_new_client_stmt_id 7).1 =
        false) ∧
    (List.foldl applySessionOp
          (((MySQL_STMTs_local_v14.empty true).generate_new_client_stmt_id 7).2,
            MySQL_STMT_Manager_v14.empty)
          sessionOpsW).1.find_global_stmt_id_from_client
        ((MySQL_STMTs_local_v14.empty true).generate_new_client_stmt_id 7).1 = some 7 :=
  ⟨by unfold WFclient; decide, by decide,
    client_id_round_trip (MySQL_STMTs_local_v14.empty true) MySQL_STMT_Manager_v14.empty 7
      sessionOpsW (by unfold WFclient; decide) (by decide)⟩

end ProxySQLPS
